import Mathlib

/-! # qa-verifier: attestation pipeline

A shallow embedding of `qa-verifier/main.go` and `qa-verifier/client.go`.

Go strings and byte slices are sequences of bytes; a byte is a natural number
(below 256 for every real string).  The functions of the Go standard library
that the program calls (`strings.TrimPrefix`, `strings.SplitN`, `json.Marshal`
of the payload, ...) are written out next to the program's own functions.
-/

namespace QAVerifier

/-- A Go `string` or `[]byte`: its bytes in order. -/
abbrev GoString := List Nat

/-- The bytes of an ASCII literal (for ASCII text the UTF-8 bytes are the code points). -/
def str (s : String) : GoString := s.toList.map Char.toNat

/-! ## Package `strings` -/

/-- Go `strings.HasPrefix`: `len(s) >= len(prefix) && s[:len(prefix)] == prefix`. -/
def HasPrefix (s pre : GoString) : Bool :=
  decide (pre.length ≤ s.length) && (s.take pre.length == pre)

/-- Go `strings.HasSuffix`: `len(s) >= len(suffix) && s[len(s)-len(suffix):] == suffix`. -/
def HasSuffix (s suf : GoString) : Bool :=
  decide (suf.length ≤ s.length) && (s.drop (s.length - suf.length) == suf)

/-- Go `strings.TrimPrefix`: `s[len(prefix):]` when `s` has the prefix, else `s`. -/
def TrimPrefix (s pre : GoString) : GoString :=
  if HasPrefix s pre then s.drop pre.length else s

/-- Go `strings.TrimSuffix`: `s[:len(s)-len(suffix)]` when `s` has the suffix, else `s`. -/
def TrimSuffix (s suf : GoString) : GoString :=
  if HasSuffix s suf then s.take (s.length - suf.length) else s

/-- Go `strings.IndexByte`: index of the first `c` in `s`; `none` stands for `-1`. -/
def IndexByte : GoString → Nat → Option Nat
  | [], _ => none
  | b :: t, c => if b = c then some 0 else (IndexByte t c).map (· + 1)

/-- Go `strings.Count` for a one-byte separator: the number of bytes equal to `c`. -/
def Count (s : GoString) (c : Nat) : Nat := s.count c

/-- The `for i < n` loop of `strings.genSplit`, with `k = n - i` cuts still allowed:
cut at the next separator, or stop and keep the rest as the last part. -/
def genSplitLoop (sep sepSave : Nat) : Nat → GoString → List GoString
  | 0, s => [s]
  | k + 1, s =>
    match IndexByte s sep with
    | none => [s]
    | some m => s.take (m + sepSave) :: genSplitLoop sep sepSave k (s.drop (m + 1))

/-- Go `strings.genSplit` for a one-byte separator `sep` (so `sep != ""` and
`Index` is `IndexByte`): `n == 0` gives nil, `n < 0` means all parts, and
`n` is capped at `len(s) + 1`. -/
def genSplit (s : GoString) (sep sepSave : Nat) (n : Int) : List GoString :=
  if n = 0 then []
  else
    let n : Nat := if n < 0 then Count s sep + 1 else n.toNat
    let n : Nat := if n > s.length + 1 then s.length + 1 else n
    genSplitLoop sep sepSave (n - 1) s

/-- Go `strings.SplitN(s, sep, n)` = `genSplit(s, sep, 0, n)`. -/
def SplitN (s : GoString) (sep : Nat) (n : Int) : List GoString := genSplit s sep 0 n

/-- Go `strings.Split(s, sep)` = `genSplit(s, sep, 0, -1)`. -/
def Split (s : GoString) (sep : Nat) : List GoString := genSplit s sep 0 (-1)

/-- Go `strings.trimLeftByte`: `for len(s) > 0 && s[0] == c { s = s[1:] }`. -/
def trimLeftByte : GoString → Nat → GoString
  | [], _ => []
  | b :: t, c => if b = c then trimLeftByte t c else b :: t

/-- The loop of `strings.trimRightByte`,
`for len(s) > 0 && s[len(s)-1] == c { s = s[:len(s)-1] }`, run for at most `k` rounds. -/
def trimRightByteLoop : Nat → GoString → Nat → GoString
  | 0, s, _ => s
  | k + 1, s, c => if s.getLast? = some c then trimRightByteLoop k s.dropLast c else s

/-- Go `strings.trimRightByte`; the loop runs at most `len(s)` rounds. -/
def trimRightByte (s : GoString) (c : Nat) : GoString := trimRightByteLoop s.length s c

/-- Go `strings.Trim(s, cutset)` for a cutset of one ASCII byte `c`:
`trimLeftByte(trimRightByte(s, c), c)`. -/
def Trim (s : GoString) (c : Nat) : GoString := trimLeftByte (trimRightByte s c) c

/-! ## Errors -/

/-- Go `error` values of the program. -/
inductive Error where
  /-- An error value handed back by a library or by `request`. -/
  | external (text : String)
  /-- Source `fmt.Errorf("invalid image ID")`. -/
  | invalidImageID
  /-- Source `fmt.Errorf("invalid noteID %q", noteID)`. -/
  | invalidNoteID (noteID : GoString)
  /-- Source `fmt.Errorf("<context>: %w", err)`. -/
  | wrapped (context : String) (err : Error)
  deriving DecidableEq, Repr

/-! ## `main.go`: `splitDockerRef` -/

/-- Source `splitDockerRef` (main.go:132-144); the triple is Go's `(string, string, error)`,
with `none` for a nil error. -/
def splitDockerRef (ref : GoString) : GoString × GoString × Option Error :=
  let ref := TrimPrefix ref (str "https://")
  let ref := TrimPrefix ref (str "http://")
  let ref := TrimSuffix ref (str "/")
  match SplitN ref '@'.toNat 2 with
  | p0 :: p1 :: _ => (Trim p0 '/'.toNat, Trim p1 '/'.toNat, none)
  | _ => ([], [], some Error.invalidImageID)

/-! ## Package `encoding/json`, as far as `json.Marshal` of the payload needs it -/

/-- Go `utf8.RuneError`, U+FFFD. -/
def RuneError : Nat := 0xFFFD

/-- Go `utf8.DecodeRuneInString`: the first rune of `s` and its width in bytes;
`(RuneError, 1)` for an invalid or short encoding, `(RuneError, 0)` for the empty string. -/
def DecodeRuneInString (s : GoString) : Nat × Nat :=
  match s with
  | [] => (RuneError, 0)
  | s0 :: rest =>
    if s0 < 0x80 then (s0, 1)
    else
      -- the table `first`: width and accepted range of the second byte
      let entry : Option (Nat × Nat × Nat) :=
        if 0xC2 ≤ s0 ∧ s0 ≤ 0xDF then some (2, 0x80, 0xBF)
        else if s0 = 0xE0 then some (3, 0xA0, 0xBF)
        else if s0 = 0xED then some (3, 0x80, 0x9F)
        else if 0xE1 ≤ s0 ∧ s0 ≤ 0xEF then some (3, 0x80, 0xBF)
        else if s0 = 0xF0 then some (4, 0x90, 0xBF)
        else if 0xF1 ≤ s0 ∧ s0 ≤ 0xF3 then some (4, 0x80, 0xBF)
        else if s0 = 0xF4 then some (4, 0x80, 0x8F)
        else none
      match entry with
      | none => (RuneError, 1)
      | some (sz, lo, hi) =>
        if s.length < sz then (RuneError, 1)
        else
          match rest with
          | [] => (RuneError, 1)
          | s1 :: rest1 =>
            if s1 < lo ∨ hi < s1 then (RuneError, 1)
            else if sz ≤ 2 then (((s0 &&& 0x1F) <<< 6) ||| (s1 &&& 0x3F), 2)
            else
              match rest1 with
              | [] => (RuneError, 1)
              | s2 :: rest2 =>
                if s2 < 0x80 ∨ 0xBF < s2 then (RuneError, 1)
                else if sz ≤ 3 then
                  (((s0 &&& 0x0F) <<< 12) ||| ((s1 &&& 0x3F) <<< 6) ||| (s2 &&& 0x3F), 3)
                else
                  match rest2 with
                  | [] => (RuneError, 1)
                  | s3 :: _ =>
                    if s3 < 0x80 ∨ 0xBF < s3 then (RuneError, 1)
                    else
                      (((s0 &&& 0x07) <<< 18) ||| ((s1 &&& 0x3F) <<< 12)
                        ||| ((s2 &&& 0x3F) <<< 6) ||| (s3 &&& 0x3F), 4)

/-- Go `encoding/json` table `htmlSafeSet`: the ASCII bytes that `json.Marshal` copies
unchanged, 0x20 to 0x7F without the quote, the backslash and the HTML characters. -/
def htmlSafeSet (b : Nat) : Bool :=
  -- 0x22 is the double quote, 0x5C the backslash
  decide (0x20 ≤ b ∧ b ≤ 0x7F ∧ b ≠ 0x22 ∧ b ≠ 0x5C
    ∧ b ≠ '&'.toNat ∧ b ≠ '<'.toNat ∧ b ≠ '>'.toNat)

/-- Go `encoding/json` constant `hex = "0123456789abcdef"`, indexed. -/
def hex (i : Nat) : Nat := (str "0123456789abcdef").getD i 0

/-- The escape that `appendString` writes for an ASCII byte outside `htmlSafeSet`
(the `switch b` of the encoder; `\b` and `\f` as written since Go 1.22). -/
def escapeByte (b : Nat) : GoString :=
  if b = 0x5C ∨ b = 0x22 then [0x5C, b]
  else if b = 0x08 then str "\\b"
  else if b = 0x0C then str "\\f"
  else if b = 0x0A then str "\\n"
  else if b = 0x0D then str "\\r"
  else if b = 0x09 then str "\\t"
  else str "\\u00" ++ [hex (b >>> 4), hex (b &&& 0xF)]

/-- The `for i < len(src)` loop of `encoding/json.appendString` with `escapeHTML`
set, as `json.Marshal` runs it: the text written for the bytes still to read. -/
def appendStringLoop : Nat → GoString → GoString
  | 0, _ => []
  | _ + 1, [] => []
  | k + 1, b :: rest =>
    if b < 0x80 then
      (if htmlSafeSet b then [b] else escapeByte b) ++ appendStringLoop k rest
    else
      let cs := DecodeRuneInString ((b :: rest).take 4)
      if cs.1 = RuneError ∧ cs.2 = 1 then
        str "\\ufffd" ++ appendStringLoop k rest
      else if cs.1 = 0x2028 ∨ cs.1 = 0x2029 then
        str "\\u202" ++ [hex (cs.1 &&& 0xF)] ++ appendStringLoop k ((b :: rest).drop cs.2)
      else
        (b :: rest).take cs.2 ++ appendStringLoop k ((b :: rest).drop cs.2)

/-- Go `encoding/json.appendString`: a JSON string literal for `src`. -/
def appendString (src : GoString) : GoString :=
  str "\"" ++ appendStringLoop src.length src ++ str "\""

/-- How `json.Marshal` writes a pointer field: `null` for nil, else the value. -/
def marshalPtr {α : Type} (f : α → GoString) : Option α → GoString
  | none => str "null"
  | some v => f v

/-! ## `client.go`: the signing payload -/

/-- Source `payloadIdentity` (client.go:83-85). -/
structure payloadIdentity where
  DockerReference : GoString
  deriving DecidableEq, Repr

/-- Source `payloadImage` (client.go:87-89). -/
structure payloadImage where
  DockerManifestDigest : GoString
  deriving DecidableEq, Repr

/-- Source `payload` (client.go:77-81); pointer fields are options. -/
structure payload where
  Identity : Option payloadIdentity
  Image : Option payloadImage
  /-- Source field `Type` (a reserved word here); it has no `json` tag. -/
  Type_ : GoString
  deriving DecidableEq, Repr

/-- Source `payloadMessage` (client.go:73-75). -/
structure payloadMessage where
  Critical : Option payload
  deriving DecidableEq, Repr

/-- Go `json.Marshal` of a `payloadIdentity`: one field, tagged `docker-reference`. -/
def marshalPayloadIdentity (v : payloadIdentity) : GoString :=
  str "\x7b\"docker-reference\":" ++ appendString v.DockerReference ++ str "\x7d"

/-- Go `json.Marshal` of a `payloadImage`: one field, tagged `docker-manifest-digest`. -/
def marshalPayloadImage (v : payloadImage) : GoString :=
  str "\x7b\"docker-manifest-digest\":" ++ appendString v.DockerManifestDigest ++ str "\x7d"

/-- Go `json.Marshal` of a `payload`: the fields in declaration order; `Identity` and
`Image` carry the tags `identity` and `image`, and `Type`, declared without a tag,
is written under its Go field name. -/
def marshalPayload (v : payload) : GoString :=
  str "\x7b\"identity\":" ++ marshalPtr marshalPayloadIdentity v.Identity
    ++ str ",\"image\":" ++ marshalPtr marshalPayloadImage v.Image
    ++ str ",\"Type\":" ++ appendString v.Type_ ++ str "\x7d"

/-- Go `json.Marshal` of a `*payloadMessage`; it has no failing case for these field
types (strings and pointers to structs). -/
def marshalPayloadMessage (v : payloadMessage) : Except Error GoString :=
  .ok (str "\x7b\"critical\":" ++ marshalPtr marshalPayload v.Critical ++ str "\x7d")

/-- Source `PayloadFor` (client.go:91-109). -/
def PayloadFor (repo sha : GoString) : Except Error GoString :=
  let p : payloadMessage :=
    { Critical := some
        { Identity := some { DockerReference := repo }
          Image := some { DockerManifestDigest := sha }
          Type_ := str "Google cloud binauthz container signature" } }
  match marshalPayloadMessage p with
  | .error err => .error (.wrapped "failed to create payload" err)
  | .ok b => .ok b

/-! ## `client.go`: the external services -/

/-- Source anonymous struct under `attestor.UserOwnedDrydockNote` (client.go:21-23). -/
structure userOwnedDrydockNote where
  NoteReference : GoString
  deriving DecidableEq, Repr

/-- Source `attestor` (client.go:17-24); the pointer field is an option. -/
structure attestor where
  Name : GoString
  Description : GoString
  UserOwnedDrydockNote : Option userOwnedDrydockNote
  deriving DecidableEq, Repr

/-- Source `(*attestor).NoteID` (client.go:27-32); `none` is the nil receiver. -/
def attestor.NoteID : Option attestor → GoString
  | none => []
  | some a =>
    match a.UserOwnedDrydockNote with
    | none => []
    | some n => n.NoteReference

/-- Source `sha512Digest` (client.go:49-51). -/
structure sha512Digest where
  SHA512 : GoString
  deriving DecidableEq, Repr

/-- Source `digest` (client.go:45-47). -/
structure digest where
  Digest : sha512Digest
  deriving DecidableEq, Repr

/-- Source `signature` (client.go:53-55). -/
structure signature where
  Signature : GoString
  deriving DecidableEq, Repr

/-- Source `occurrenceSignature` (client.go:132-135). -/
structure occurrenceSignature where
  PublicKeyID : GoString
  Signature : GoString
  deriving DecidableEq, Repr

/-- Source `genericSignedAttestation` (client.go:126-130). -/
structure genericSignedAttestation where
  ContentType : GoString
  SerializedPayload : GoString
  Signatures : List (Option occurrenceSignature)
  deriving DecidableEq, Repr

/-- Source `attestation` (client.go:122-124). -/
structure attestation where
  GeneraticSignedAttestation : Option genericSignedAttestation
  deriving DecidableEq, Repr

/-- Source `occurrenceAttestation` (client.go:118-120). -/
structure occurrenceAttestation where
  Attestation : Option attestation
  deriving DecidableEq, Repr

/-- Source `occurrenceResource` (client.go:137-139). -/
structure occurrenceResource where
  URI : GoString
  deriving DecidableEq, Repr

/-- Source `occurrence` (client.go:111-116). -/
structure occurrence where
  Attestation : Option occurrenceAttestation
  Kind : GoString
  NoteName : GoString
  Resource : Option occurrenceResource
  deriving DecidableEq, Repr

/-- The three remote services as the program reaches them through `get`, `post` and
`request` (client.go:185-222).  Each field is one HTTP exchange: the argument is the
URL (and the value that is marshalled into the body), the result is the decoded
response, or the error `request` returns (no client, transport failure, bad API
response, undecodable body).  `json.Marshal` of a `digest` or an `occurrence` has no
failing case, so the body is kept as the value that is marshalled. -/
structure Services where
  /-- Source `get(ctx, u, &a)` against the attestor directory. -/
  getAttestor : GoString → Except Error attestor
  /-- Source `post(ctx, u, body, &s)` against the signing service. -/
  postSign : GoString → digest → Except Error signature
  /-- Source `post(ctx, u, body, nil)` against the ledger service. -/
  postOccurrence : GoString → occurrence → Except Error Unit

/-- One call of `request`: what the program sent, in the order it sent it. -/
inductive Call where
  | getAttestor (u : GoString)
  | postSign (u : GoString) (d : digest)
  | postOccurrence (u : GoString) (o : occurrence)
  deriving DecidableEq, Repr

/-- Source `Attestor` (client.go:35-43), with the requests it made. -/
def Attestor (svc : Services) (id : GoString) : Except Error attestor × List Call :=
  let u := str "https://binaryauthorization.googleapis.com/v1beta1/" ++ id
  match svc.getAttestor u with
  | .error err => (.error (.wrapped "failed to get attestor" err), [Call.getAttestor u])
  | .ok a => (.ok a, [Call.getAttestor u])

/-- Source `KMSSign` (client.go:57-71), with the requests it made. -/
def KMSSign (svc : Services) (id : GoString) (d : digest) :
    Except Error signature × List Call :=
  let u := str "https://cloudkms.googleapis.com/v1/" ++ id ++ str ":asymmetricSign"
  match svc.postSign u d with
  | .error err => (.error (.wrapped "failed to sign" err), [Call.postSign u d])
  | .ok s => (.ok s, [Call.postSign u d])

/-- Source `CreateOccurrence` (client.go:141-183): the returned error (`none` for nil)
and the requests it made. -/
def CreateOccurrence (svc : Services) (noteID imageID keyID payload sig : GoString) :
    Option Error × List Call :=
  let parts := Split noteID '/'.toNat
  if parts.length < 4 then (some (.invalidNoteID noteID), [])
  else
    let projectID := parts.getD 1 []
    let u := str "https://containeranalysis.googleapis.com/v1beta1/projects/" ++ projectID
      ++ str "/occurrences"
    let o : occurrence :=
      { Attestation := some
          { Attestation := some
              { GeneraticSignedAttestation := some
                  { ContentType := str "SIMPLE_SIGNING_JSON"
                    SerializedPayload := payload
                    Signatures :=
                      [some { PublicKeyID := str "//cloudkms.googleapis.com/v1/" ++ keyID
                              Signature := sig }] } } }
        Kind := str "ATTESTATION"
        NoteName := noteID
        Resource := some { URI := str "https://" ++ imageID } }
    match svc.postOccurrence u o with
    | .error err => (some (.wrapped "failed to create occurrence" err), [Call.postOccurrence u o])
    | .ok _ => (none, [Call.postOccurrence u o])

/-! ## `main.go`: the `/verify` handler -/

/-- The package variables `attestorID` and `kmsKeyVersionID` (main.go:27-31). -/
structure Config where
  attestorID : GoString
  kmsKeyVersionID : GoString

/-- What the handler reads from the `*http.Request`. -/
structure Request where
  /-- The result of `r.ParseForm()`, `none` for nil. -/
  parseForm : Option Error
  /-- The value of `r.FormValue("imageID")`. -/
  imageID : GoString

/-- The two bodies the handler writes. -/
inductive Page where
  /-- The text `Missing imageID`. -/
  | missingImageID
  /-- The page `errHTML`. -/
  | errHTML
  deriving DecidableEq, Repr

/-- What the handler does to the `http.ResponseWriter`. -/
inductive Response where
  /-- Source `Header().Set("Content-Type", contentType)`, `WriteHeader(status)`,
  `Write(body)`. -/
  | page (status : Nat) (contentType : String) (body : Page)
  /-- Source `http.Redirect(w, r, url, code)`. -/
  | redirect (url : String) (code : Nat)
  deriving DecidableEq, Repr

/-- One `log.Printf` line. -/
inductive LogLine where
  /-- Line `[ERR] missing imageID`. -/
  | missingImageID
  /-- Line `[ERR] %s` with the error. -/
  | err (e : Error)
  deriving DecidableEq, Repr

/-- One run of the handler: the response, the requests sent to the services in
order, and the log lines. -/
structure Outcome where
  response : Response
  calls : List Call
  log : List LogLine
  deriving DecidableEq, Repr

/-- Source `handleError` (main.go:124-130), after the requests `calls`. -/
def handleError (calls : List Call) (err : Error) : Outcome :=
  { response := .page 500 "text/html" .errHTML, calls := calls, log := [.err err] }

/-- Source `/verify` handler (main.go:50-114).  `Sum512` is `crypto/sha512.Sum512`,
returning the 64 bytes of the sum. -/
def verify (cfg : Config) (Sum512 : GoString → GoString) (svc : Services) (r : Request) :
    Outcome :=
  match r.parseForm with
  | some err => handleError [] (.wrapped "failed to parse form" err)
  | none =>
    let imageID := r.imageID
    if imageID = [] then
      { response := .page 422 "text/html" .missingImageID, calls := [],
        log := [.missingImageID] }
    else
      match Attestor svc cfg.attestorID with
      | (.error err, c1) => handleError c1 (.wrapped "failed to lookup attestor" err)
      | (.ok a, c1) =>
        match splitDockerRef imageID with
        | (_, _, some err) => handleError c1 (.wrapped "failed to parse ref" err)
        | (repo, sha, none) =>
          match PayloadFor repo sha with
          | .error err => handleError c1 (.wrapped "failed to generate payload" err)
          | .ok payload =>
            let sum := Sum512 payload
            match KMSSign svc cfg.kmsKeyVersionID { Digest := { SHA512 := sum } } with
            | (.error err, c2) => handleError (c1 ++ c2) (.wrapped "failed to sign" err)
            | (.ok sig, c2) =>
              match CreateOccurrence svc (attestor.NoteID (some a)) imageID
                  cfg.kmsKeyVersionID payload sig.Signature with
              | (some err, c3) =>
                handleError (c1 ++ c2 ++ c3) (.wrapped "failed to create occurrence" err)
              | (none, c3) =>
                { response := .redirect "/" 302, calls := c1 ++ c2 ++ c3, log := [] }

/-! ## Specification-level reading of the parser -/

/-- Removal of a leading `pre`: the rest of `s` behind `pre`, or `none` when `s` does
not start with `pre`. -/
def dropLeading : GoString → GoString → Option GoString
  | [], s => some s
  | _ :: _, [] => none
  | p :: ps, b :: bs => if p = b then dropLeading ps bs else none

/-- The input with a leading `https://` removed, then a leading `http://` removed,
then one trailing `/` removed. -/
def specStripped (ref : GoString) : GoString :=
  let s := (dropLeading (str "https://") ref).getD ref
  let s := (dropLeading (str "http://") s).getD s
  if s.getLast? = some '/'.toNat then s.dropLast else s

/-- The text with its enclosing `/` bytes trimmed. -/
def specTrimSlashes (t : GoString) : GoString :=
  (t.dropWhile (· == '/'.toNat)).rdropWhile (· == '/'.toNat)

/-- The text of the stripped input before its first `@`. -/
def specBefore (ref : GoString) : GoString :=
  (specStripped ref).takeWhile (· != '@'.toNat)

/-- The text of the stripped input after its first `@`. -/
def specAfter (ref : GoString) : GoString :=
  ((specStripped ref).dropWhile (· != '@'.toNat)).drop 1

/-! ## A concrete run, for the examples -/

/-- Configuration of the examples. -/
def demoConfig : Config :=
  { attestorID := str "projects/p/attestors/a", kmsKeyVersionID := str "k" }

/-- Services of the examples: the directory returns an attestor bound to `note`, the
signer returns the one-byte signature `[7]`, the ledger accepts. -/
def demoServices (note : Option userOwnedDrydockNote) : Services :=
  { getAttestor := fun _ => .ok { Name := str "qa", Description := str "",
                                  UserOwnedDrydockNote := note }
    postSign := fun _ _ => .ok { Signature := [7] }
    postOccurrence := fun _ _ => .ok () }

/-- A stand-in for the hash in the examples: the first two bytes. -/
def demoSum (b : GoString) : GoString := b.take 2

/-- The ledger record of the example run for `gcr.io/proj/demo-app@sha256:abcd` under
the note `projects/proj/notes/qa`. -/
def demoRecord : occurrence :=
  { Kind := str "ATTESTATION"
    NoteName := str "projects/proj/notes/qa"
    Resource := some { URI := str "https://gcr.io/proj/demo-app@sha256:abcd" }
    Attestation := some
      { Attestation := some
          { GeneraticSignedAttestation := some
              { ContentType := str "SIMPLE_SIGNING_JSON"
                SerializedPayload :=
                  str ("\x7b\"critical\":\x7b\"identity\":\x7b\"docker-reference\":"
                    ++ "\"gcr.io/proj/demo-app\"\x7d,\"image\":\x7b"
                    ++ "\"docker-manifest-digest\":\"sha256:abcd\"\x7d,\"Type\":"
                    ++ "\"Google cloud binauthz container signature\"\x7d\x7d")
                Signatures :=
                  [some { PublicKeyID := str "//cloudkms.googleapis.com/v1/k"
                          Signature := [7] }] } } } }

/-! ## Lemmas on package `strings` -/

theorem hasPrefix_iff (s pre : GoString) : HasPrefix s pre = true ↔ pre <+: s := by
  unfold HasPrefix
  rw [List.prefix_iff_eq_take]
  constructor
  · intro h
    simp only [Bool.and_eq_true, decide_eq_true_eq, beq_iff_eq] at h
    exact h.2.symm
  · intro h
    simp only [Bool.and_eq_true, decide_eq_true_eq, beq_iff_eq]
    refine ⟨?_, h.symm⟩
    have := congrArg List.length h
    simp at this
    omega

theorem dropLeading_eq_some (pre s t : GoString) :
    dropLeading pre s = some t ↔ s = pre ++ t := by
  induction pre generalizing s with
  | nil => simp [dropLeading, eq_comm]
  | cons p ps ih =>
    cases s with
    | nil => simp [dropLeading]
    | cons b bs =>
      by_cases hpb : p = b
      · subst hpb; simp [dropLeading, ih]
      · simp [dropLeading, hpb]; intro h; exact absurd h.symm hpb

theorem dropLeading_eq_none (pre s : GoString) :
    dropLeading pre s = none ↔ ¬ pre <+: s := by
  constructor
  · rintro h ⟨t, ht⟩
    have := (dropLeading_eq_some pre s t).2 ht.symm
    rw [h] at this; cases this
  · intro h
    cases hd : dropLeading pre s with
    | none => rfl
    | some t => exact absurd ⟨t, ((dropLeading_eq_some pre s t).1 hd).symm⟩ h

theorem trimPrefix_eq_dropLeading (s pre : GoString) :
    TrimPrefix s pre = (dropLeading pre s).getD s := by
  unfold TrimPrefix
  by_cases h : HasPrefix s pre = true
  · rw [if_pos h]
    obtain ⟨t, ht⟩ := (hasPrefix_iff s pre).1 h
    rw [(dropLeading_eq_some pre s t).2 ht.symm, ← ht]
    simp
  · rw [if_neg h]
    have : ¬ pre <+: s := fun hp => h ((hasPrefix_iff s pre).2 hp)
    rw [(dropLeading_eq_none pre s).2 this]
    rfl

theorem trimPrefix_append (pre t : GoString) : TrimPrefix (pre ++ t) pre = t := by
  rw [trimPrefix_eq_dropLeading, (dropLeading_eq_some pre (pre ++ t) t).2 rfl]
  rfl

theorem trimPrefix_of_not_hasPrefix (s pre : GoString) (h : HasPrefix s pre = false) :
    TrimPrefix s pre = s := by
  unfold TrimPrefix
  simp [h]

theorem trimSuffix_one (s : GoString) (c : Nat) :
    TrimSuffix s [c] = if s.getLast? = some c then s.dropLast else s := by
  unfold TrimSuffix HasSuffix
  by_cases h : s.getLast? = some c
  · obtain ⟨ys, rfl⟩ := List.getLast?_eq_some_iff.1 h
    simp
  · rw [if_neg h]
    have : ¬ ([c] <:+ s) := by
      rintro ⟨ys, rfl⟩
      exact h (List.getLast?_concat ys)
    rw [List.suffix_iff_eq_drop] at this
    have h2 : (decide ([c].length ≤ s.length) && (s.drop (s.length - [c].length) == [c]))
        = false := by
      simp only [Bool.and_eq_false_iff, decide_eq_false_iff_not, beq_eq_false_iff_ne]
      right
      exact fun e => this e.symm
    rw [h2]; rfl

theorem indexByte_eq_none (s : GoString) (c : Nat) : IndexByte s c = none ↔ c ∉ s := by
  induction s with
  | nil => simp [IndexByte]
  | cons b t ih =>
    by_cases hb : b = c
    · simp [IndexByte, hb]
    · have hb2 : ¬ c = b := fun e => hb e.symm
      simp [IndexByte, hb, ih, hb2]

theorem indexByte_eq_some (s : GoString) (c m : Nat) (h : IndexByte s c = some m) :
    s.take m = s.takeWhile (· != c) ∧ s.drop (m + 1) = (s.dropWhile (· != c)).drop 1 := by
  induction s generalizing m with
  | nil => simp [IndexByte] at h
  | cons b t ih =>
    by_cases hb : b = c
    · simp [IndexByte, hb] at h
      subst h; subst hb
      simp
    · cases hk : IndexByte t c with
      | none => simp [IndexByte, hb, hk] at h
      | some k =>
        simp [IndexByte, hb, hk] at h
        subst h
        have := ih k hk
        simp [hb, this.1, this.2]

theorem splitN_two (s : GoString) (c : Nat) :
    SplitN s c 2 =
      if c ∈ s then [s.takeWhile (· != c), (s.dropWhile (· != c)).drop 1] else [s] := by
  unfold SplitN genSplit
  by_cases h : c ∈ s
  · rw [if_pos h]
    have hlen : 0 < s.length := List.length_pos_of_mem h
    have h1 : ¬ (2 : Nat) > s.length + 1 := by omega
    cases hi : IndexByte s c with
    | none => exact absurd h ((indexByte_eq_none s c).1 hi)
    | some m =>
      obtain ⟨e1, e2⟩ := indexByte_eq_some s c m hi
      simp [h1, genSplitLoop, hi, e1, e2]
  · rw [if_neg h]
    have hi := (indexByte_eq_none s c).2 h
    by_cases h1 : (2 : Nat) > s.length + 1
    · have : s = [] := List.length_eq_zero.1 (by omega)
      subst this
      simp [genSplitLoop]
    · simp [h1, genSplitLoop, hi]

theorem trimLeftByte_eq (s : GoString) (c : Nat) :
    trimLeftByte s c = s.dropWhile (· == c) := by
  induction s with
  | nil => rfl
  | cons b t ih =>
    by_cases hb : b = c
    · simp [trimLeftByte, hb, ih]
    · simp [trimLeftByte, hb]

theorem trimRightByteLoop_eq (k : Nat) (s : GoString) (c : Nat) (h : s.length ≤ k) :
    trimRightByteLoop k s c = s.rdropWhile (· == c) := by
  induction k generalizing s with
  | zero =>
    have : s = [] := List.length_eq_zero.1 (by omega)
    subst this; simp [trimRightByteLoop]
  | succ k ih =>
    unfold trimRightByteLoop
    by_cases hl : s.getLast? = some c
    · obtain ⟨ys, rfl⟩ := List.getLast?_eq_some_iff.1 hl
      rw [if_pos hl, List.dropLast_concat, List.rdropWhile_concat_pos _ _ _ (by simp)]
      apply ih
      simp at h; omega
    · rw [if_neg hl]
      symm
      rw [List.rdropWhile_eq_self_iff]
      intro hne habs
      apply hl
      rw [List.getLast?_eq_getLast _ hne]
      simp at habs
      rw [habs]

theorem trimRightByte_eq (s : GoString) (c : Nat) :
    trimRightByte s c = s.rdropWhile (· == c) :=
  trimRightByteLoop_eq s.length s c (Nat.le_refl _)

theorem rdropWhile_dropWhile_comm (p : Nat → Bool) (l : GoString) :
    (l.rdropWhile p).dropWhile p = (l.dropWhile p).rdropWhile p := by
  induction l with
  | nil => simp
  | cons a t ih =>
    by_cases ha : p a = true
    · rw [List.dropWhile_cons_of_pos ha, ← ih]
      by_cases hall : ∀ x ∈ t, p x = true
      · have h1 : List.rdropWhile p (a :: t) = [] :=
          List.rdropWhile_eq_nil_iff.2 (by
            intro x hx
            rcases List.mem_cons.1 hx with rfl | hx
            · exact ha
            · exact hall x hx)
        have h2 : List.rdropWhile p t = [] := List.rdropWhile_eq_nil_iff.2 hall
        rw [h1, h2]
      · have h3 : List.rdropWhile p (a :: t) = a :: List.rdropWhile p t := by
          unfold List.rdropWhile
          rw [List.reverse_cons, List.dropWhile_append]
          have : ¬ (List.dropWhile p t.reverse).isEmpty = true := by
            rw [List.isEmpty_iff, List.dropWhile_eq_nil_iff]
            intro hh
            exact hall (fun x hx => hh x (List.mem_reverse.2 hx))
          simp [this]
        rw [h3, List.dropWhile_cons_of_pos ha]
    · rw [List.dropWhile_cons_of_neg ha]
      have h3 : List.rdropWhile p (a :: t) = a :: List.rdropWhile p t ∨
          (List.rdropWhile p (a :: t) = [a]) := by
        unfold List.rdropWhile
        rw [List.reverse_cons, List.dropWhile_append]
        by_cases he : (List.dropWhile p t.reverse).isEmpty = true
        · right; simp [he, ha]
        · left; simp [he]
      rcases h3 with h3 | h3
      · rw [h3, List.dropWhile_cons_of_neg ha]
      · have : List.rdropWhile p (a :: t) ≠ [] := by rw [h3]; simp
        rw [h3, List.dropWhile_cons_of_neg ha]

theorem trim_eq_spec (s : GoString) : Trim s '/'.toNat = specTrimSlashes s := by
  unfold Trim specTrimSlashes
  rw [trimLeftByte_eq, trimRightByte_eq, rdropWhile_dropWhile_comm]


theorem count_trimPrefix (s pre : GoString) (c : Nat) (hc : c ∉ pre) :
    (TrimPrefix s pre).count c = s.count c := by
  rw [trimPrefix_eq_dropLeading]
  cases hd : dropLeading pre s with
  | none => rfl
  | some t =>
    have := (dropLeading_eq_some pre s t).1 hd
    subst this
    simp [List.count_append, List.count_eq_zero.2 hc]

theorem count_trimSuffix_one (s : GoString) (c d : Nat) (hcd : d ≠ c) :
    (TrimSuffix s [d]).count c = s.count c := by
  rw [trimSuffix_one]
  by_cases h : s.getLast? = some d
  · rw [if_pos h]
    obtain ⟨ys, rfl⟩ := List.getLast?_eq_some_iff.1 h
    simp [List.count_append, List.count_cons_of_ne (Ne.symm hcd)]
  · rw [if_neg h]

theorem stripped_eq_spec (ref : GoString) :
    TrimSuffix (TrimPrefix (TrimPrefix ref (str "https://")) (str "http://")) (str "/")
      = specStripped ref := by
  unfold specStripped
  dsimp only
  rw [← trimPrefix_eq_dropLeading, ← trimPrefix_eq_dropLeading]
  exact trimSuffix_one _ _

theorem count_at_specStripped (ref : GoString) :
    (specStripped ref).count '@'.toNat = ref.count '@'.toNat := by
  rw [← stripped_eq_spec]
  have e : str "/" = ['/'.toNat] := rfl
  rw [e, count_trimSuffix_one _ _ _ (by decide), count_trimPrefix _ _ _ (by decide),
    count_trimPrefix _ _ _ (by decide)]

theorem at_mem_specStripped (ref : GoString) :
    '@'.toNat ∈ specStripped ref ↔ '@'.toNat ∈ ref := by
  rw [← List.count_pos_iff, ← List.count_pos_iff, count_at_specStripped]

theorem splitDockerRef_eq (ref : GoString) :
    splitDockerRef ref =
      if '@'.toNat ∈ ref then
        (specTrimSlashes (specBefore ref), specTrimSlashes (specAfter ref), none)
      else ([], [], some Error.invalidImageID) := by
  unfold splitDockerRef
  simp only [stripped_eq_spec, splitN_two, at_mem_specStripped]
  by_cases h : '@'.toNat ∈ ref
  · simp only [if_pos h, trim_eq_spec]
    rfl
  · simp only [if_neg h]

theorem specTrimSlashes_eq_nil (t : GoString) :
    specTrimSlashes t = [] ↔ ∀ b ∈ t, b = '/'.toNat := by
  unfold specTrimSlashes
  rw [List.rdropWhile_eq_nil_iff]
  constructor
  · intro h
    have hnil : t.dropWhile (· == '/'.toNat) = [] := by
      cases hd : t.dropWhile (· == '/'.toNat) with
      | nil => rfl
      | cons x xs =>
        have h1 := List.head?_dropWhile_not (· == '/'.toNat) t
        rw [hd] at h1
        have h2 := h x (by rw [hd]; exact List.mem_cons_self _ _)
        simp at h1 h2
        exact absurd h2 h1
    intro b hb
    have := List.dropWhile_eq_nil_iff.1 hnil b hb
    simpa using this
  · intro h x hx
    have := h x ((List.dropWhile_suffix _).subset hx)
    simpa using this

theorem specTrimSlashes_sublist (t : GoString) : (specTrimSlashes t).Sublist t :=
  (List.rdropWhile_prefix _ _).sublist.trans (List.dropWhile_suffix _).sublist

theorem count_dropWhile_of_ne (p : Nat → Bool) (c : Nat) (hp : p c = false) (l : GoString) :
    (l.dropWhile p).count c = l.count c := by
  induction l with
  | nil => rfl
  | cons a t ih =>
    by_cases ha : p a = true
    · have hac : a ≠ c := by rintro rfl; rw [hp] at ha; cases ha
      rw [List.dropWhile_cons_of_pos ha, ih, List.count_cons_of_ne (Ne.symm hac)]
    · rw [List.dropWhile_cons_of_neg ha]

theorem count_specTrimSlashes (t : GoString) (c : Nat) (hc : c ≠ '/'.toNat) :
    (specTrimSlashes t).count c = t.count c := by
  have hp : (fun x : Nat => x == '/'.toNat) c = false := by simpa using hc
  unfold specTrimSlashes List.rdropWhile
  rw [List.count_reverse, count_dropWhile_of_ne _ c hp, List.count_reverse,
    count_dropWhile_of_ne _ c hp]

theorem count_split_first (s : GoString) (c : Nat) (h : c ∈ s) :
    ((s.dropWhile (· != c)).drop 1).count c + 1 = s.count c := by
  induction s with
  | nil => simp at h
  | cons a t ih =>
    by_cases ha : a = c
    · subst ha; simp
    · have hc : c ∈ t := by
        rcases List.mem_cons.1 h with e | e
        · exact absurd e.symm ha
        · exact e
      have := ih hc
      have hca : c ≠ a := fun e => ha e.symm
      rw [List.count_cons_of_ne hca, ← this]
      simp [ha]

theorem specTrimSlashes_head (t : GoString) :
    (specTrimSlashes t).head? ≠ some '/'.toNat := by
  unfold specTrimSlashes
  rw [← rdropWhile_dropWhile_comm]
  intro h
  have h1 := List.head?_dropWhile_not (· == '/'.toNat) (t.rdropWhile (· == '/'.toNat))
  rw [h] at h1
  simp at h1

theorem specTrimSlashes_getLast (t : GoString) :
    (specTrimSlashes t).getLast? ≠ some '/'.toNat := by
  unfold specTrimSlashes
  intro h
  have hne : (t.dropWhile (· == '/'.toNat)).rdropWhile (· == '/'.toNat) ≠ [] := by
    intro e; rw [e] at h; simp at h
  have h1 := List.rdropWhile_last_not (· == '/'.toNat) (t.dropWhile (· == '/'.toNat)) hne
  rw [List.getLast?_eq_getLast _ hne] at h
  simp at h
  simp [h] at h1

theorem specTrimSlashes_eq_self (t : GoString) (h1 : t.head? ≠ some '/'.toNat)
    (h2 : t.getLast? ≠ some '/'.toNat) : specTrimSlashes t = t := by
  have e1 : t.dropWhile (· == '/'.toNat) = t := by
    cases t with
    | nil => rfl
    | cons a u =>
      have : a ≠ '/'.toNat := by simpa using h1
      exact List.dropWhile_cons_of_neg (by simpa using this)
  unfold specTrimSlashes
  rw [e1, List.rdropWhile_eq_self_iff]
  intro hne habs
  apply h2
  rw [List.getLast?_eq_getLast _ hne]
  simp at habs
  rw [habs]
  rfl

theorem prefix_of_prefix_append_cons (pre r t : GoString) (c : Nat) (hc : c ∉ pre)
    (h : pre <+: r ++ c :: t) : pre <+: r := by
  induction pre generalizing r with
  | nil => exact List.nil_prefix
  | cons p ps ih =>
    cases r with
    | nil =>
      rw [List.nil_append, List.cons_prefix_cons] at h
      exact absurd (List.mem_cons.2 (Or.inl h.1.symm)) hc
    | cons a r1 =>
      rw [List.cons_append, List.cons_prefix_cons] at h
      rw [List.cons_prefix_cons]
      exact ⟨h.1, ih r1 (fun hm => hc (List.mem_cons_of_mem _ hm)) h.2⟩


/-! ## Lemmas on `json.Marshal` of the payload and on `strings.Split` -/

theorem appendStringLoop_safe (k : Nat) (s : GoString) (hk : s.length ≤ k)
    (hs : ∀ b ∈ s, htmlSafeSet b = true) : appendStringLoop k s = s := by
  induction s generalizing k with
  | nil => cases k <;> rfl
  | cons b t ih =>
    cases k with
    | zero => simp at hk
    | succ k =>
      have hb : htmlSafeSet b = true := hs b (List.mem_cons_self _ _)
      have hlt : b < 0x80 := by
        unfold htmlSafeSet at hb
        simp only [decide_eq_true_eq] at hb
        omega
      have ht := ih k (by simpa using hk) (fun x hx => hs x (List.mem_cons_of_mem _ hx))
      simp only [appendStringLoop, if_pos hlt, hb, if_true, ht]
      rfl

theorem appendString_safe (s : GoString) (hs : ∀ b ∈ s, htmlSafeSet b = true) :
    appendString s = str "\"" ++ s ++ str "\"" := by
  unfold appendString
  rw [appendStringLoop_safe _ _ (Nat.le_refl _) hs]

/-- What `PayloadFor` returns on text that needs no escaping: the document of the
signing payload, in one line, with the type tag under the key `Type`. -/
theorem payloadFor_safe (r d : GoString) (hr : ∀ b ∈ r, htmlSafeSet b = true)
    (hd : ∀ b ∈ d, htmlSafeSet b = true) :
    PayloadFor r d = .ok (str "\x7b\"critical\":\x7b\"identity\":\x7b\"docker-reference\":\""
      ++ r ++ str "\"\x7d,\"image\":\x7b\"docker-manifest-digest\":\"" ++ d
      ++ str "\"\x7d,\"Type\":\"Google cloud binauthz container signature\"\x7d\x7d") := by
  have ht : appendString (str "Google cloud binauthz container signature")
      = str "\"Google cloud binauthz container signature\"" := by decide
  simp only [PayloadFor, marshalPayloadMessage, marshalPtr, marshalPayload,
    marshalPayloadIdentity, marshalPayloadImage, appendString_safe r hr,
    appendString_safe d hd, ht]
  simp [str]

theorem payloadFor_isOk (r d : GoString) : ∃ b, PayloadFor r d = .ok b :=
  ⟨_, rfl⟩

theorem genSplitLoop_length (c sv k : Nat) (s : GoString) :
    (genSplitLoop c sv k s).length = min k (s.count c) + 1 := by
  induction k generalizing s with
  | zero => simp [genSplitLoop]
  | succ k ih =>
    unfold genSplitLoop
    cases hi : IndexByte s c with
    | none =>
      have : s.count c = 0 := List.count_eq_zero.2 ((indexByte_eq_none s c).1 hi)
      simp [this]
    | some m =>
      have hmem : c ∈ s := by
        by_contra hn
        rw [(indexByte_eq_none s c).2 hn] at hi
        cases hi
      have h1 := count_split_first s c hmem
      rw [← (indexByte_eq_some s c m hi).2] at h1
      simp only [List.length_cons, ih]
      omega

theorem split_length (s : GoString) (c : Nat) : (Split s c).length = s.count c + 1 := by
  unfold Split genSplit Count
  have h1 : ¬ ((-1 : Int) = 0) := by decide
  have h2 : (-1 : Int) < 0 := by decide
  have h3 : ¬ (s.count c + 1 > s.length + 1) := by
    have := List.count_le_length c s
    omega
  simp only [if_neg h1, if_pos h2, if_neg h3, genSplitLoop_length]
  omega


/-- The one request `CreateOccurrence` sends once the note has passed the check. -/
theorem createOccurrence_sent (svc : Services)
    (noteID imageID keyID payload sig : GoString)
    (h : 4 ≤ (Split noteID '/'.toNat).length) :
    (CreateOccurrence svc noteID imageID keyID payload sig).2
      = [Call.postOccurrence
          (str "https://containeranalysis.googleapis.com/v1beta1/projects/"
            ++ (Split noteID '/'.toNat).getD 1 [] ++ str "/occurrences")
          { Kind := str "ATTESTATION"
            NoteName := noteID
            Resource := some { URI := str "https://" ++ imageID }
            Attestation := some
              { Attestation := some
                  { GeneraticSignedAttestation := some
                      { ContentType := str "SIMPLE_SIGNING_JSON"
                        SerializedPayload := payload
                        Signatures :=
                          [some { PublicKeyID := str "//cloudkms.googleapis.com/v1/" ++ keyID
                                  Signature := sig }] } } } }] := by
  have h1 : ¬ (Split noteID '/'.toNat).length < 4 := by omega
  simp only [CreateOccurrence, if_neg h1]
  split <;> rfl

/-! ## Claims on `splitDockerRef` -/

/-- C2, as stated, fails: the repository `http://x` contains no `@` and neither begins
nor ends with `/`, yet parsing `https://http://x@d/` yields `(x, d)`, because the
parser strips `http://` after `https://`. -/
theorem http_repository_not_roundtripped :
    '@'.toNat ∉ str "http://x" ∧ '@'.toNat ∉ str "d"
      ∧ (str "http://x").head? ≠ some '/'.toNat ∧ (str "http://x").getLast? ≠ some '/'.toNat
      ∧ (str "d").head? ≠ some '/'.toNat ∧ (str "d").getLast? ≠ some '/'.toNat
      ∧ splitDockerRef (str "https://" ++ str "http://x" ++ str "@" ++ str "d" ++ str "/")
          = (str "x", str "d", none)
      ∧ splitDockerRef (str "https://" ++ str "http://x" ++ str "@" ++ str "d" ++ str "/")
          ≠ (str "http://x", str "d", none) := by
  decide

/-- C2, amended: for every repository `r` and digest `d` that contain no `@`, neither
begin nor end with `/`, and where `r` does not begin with `http://`,
`splitDockerRef("https://" + r + "@" + d + "/")` succeeds and returns exactly `(r, d)`. -/
theorem splitDockerRef_roundtrip (r d : GoString)
    (hr : '@'.toNat ∉ r) (hd : '@'.toNat ∉ d)
    (hr1 : r.head? ≠ some '/'.toNat) (hr2 : r.getLast? ≠ some '/'.toNat)
    (hd1 : d.head? ≠ some '/'.toNat) (hd2 : d.getLast? ≠ some '/'.toNat)
    (hhttp : HasPrefix r (str "http://") = false) :
    splitDockerRef (str "https://" ++ r ++ str "@" ++ d ++ str "/") = (r, d, none) := by
  have _ := hd
  have e0 : str "https://" ++ r ++ str "@" ++ d ++ str "/"
      = str "https://" ++ (r ++ '@'.toNat :: (d ++ ['/'.toNat])) := by
    simp [str]
  have e1 : r ++ '@'.toNat :: (d ++ ['/'.toNat]) = (r ++ '@'.toNat :: d) ++ ['/'.toNat] := by
    simp
  have hnp : HasPrefix (r ++ '@'.toNat :: (d ++ ['/'.toNat])) (str "http://") = false := by
    cases hp : HasPrefix (r ++ '@'.toNat :: (d ++ ['/'.toNat])) (str "http://") with
    | false => rfl
    | true =>
      have h1 := (hasPrefix_iff _ _).1 hp
      have h2 := prefix_of_prefix_append_cons _ _ _ _ (by decide) h1
      rw [(hasPrefix_iff _ _).2 h2] at hhttp
      cases hhttp
  have e2 : (r ++ '@'.toNat :: d).takeWhile (· != '@'.toNat) = r := by
    rw [List.takeWhile_append_of_pos (by
      intro a ha
      have : a ≠ '@'.toNat := fun e => hr (e ▸ ha)
      simpa using this)]
    simp
  have e3 : ((r ++ '@'.toNat :: d).dropWhile (· != '@'.toNat)).drop 1 = d := by
    rw [List.dropWhile_append_of_pos (by
      intro a ha
      have : a ≠ '@'.toNat := fun e => hr (e ▸ ha)
      simpa using this)]
    simp
  unfold splitDockerRef
  dsimp only
  have es : str "/" = ['/'.toNat] := rfl
  rw [e0, trimPrefix_append, trimPrefix_of_not_hasPrefix _ _ hnp, es, trimSuffix_one, e1,
    if_pos (List.getLast?_concat _), List.dropLast_concat, splitN_two,
    if_pos (List.mem_append_right _ (List.mem_cons_self _ _)), e2, e3]
  simp only [trim_eq_spec, specTrimSlashes_eq_self r hr1 hr2, specTrimSlashes_eq_self d hd1 hd2]

/-- C2, amended, at `r = gcr.io/proj/demo-app`, `d = sha256:abcd`. -/
theorem splitDockerRef_roundtrip_witness :
    splitDockerRef (str "https://" ++ str "gcr.io/proj/demo-app" ++ str "@"
      ++ str "sha256:abcd" ++ str "/") = (str "gcr.io/proj/demo-app", str "sha256:abcd", none) :=
  splitDockerRef_roundtrip (str "gcr.io/proj/demo-app") (str "sha256:abcd")
    (by decide) (by decide) (by decide) (by decide) (by decide) (by decide) (by decide)

/-- C3: on every input `splitDockerRef` either succeeds, and then the input contains
`@`, or fails with the invalid-image-ID error and two empty strings, and then the
input contains no `@`; so it fails exactly when the input contains no `@`. -/
theorem splitDockerRef_error_iff (ref : GoString) :
    ('@'.toNat ∈ ref ∧ (splitDockerRef ref).2.2 = none)
      ∨ ('@'.toNat ∉ ref ∧ splitDockerRef ref = ([], [], some Error.invalidImageID)) := by
  rw [splitDockerRef_eq]
  by_cases h : '@'.toNat ∈ ref
  · left; rw [if_pos h]; exact ⟨h, rfl⟩
  · right; rw [if_neg h]; exact ⟨h, rfl⟩

/-- C3 at the reference `gcr.io/p/demo-app`: it is rejected. -/
theorem splitDockerRef_error_iff_witness :
    splitDockerRef (str "gcr.io/p/demo-app") = ([], [], some Error.invalidImageID) :=
  (splitDockerRef_error_iff (str "gcr.io/p/demo-app")).elim
    (fun h => absurd h.1 (by decide)) (fun h => h.2)

/-- C8, as stated, fails: `@`, `gcr.io/p/app@`, `@sha256:ab` and `/@/` are all
accepted, with an empty repository or an empty digest. -/
theorem empty_sides_accepted :
    splitDockerRef (str "@") = ([], [], none)
      ∧ splitDockerRef (str "gcr.io/p/app@") = (str "gcr.io/p/app", [], none)
      ∧ splitDockerRef (str "@sha256:ab") = ([], str "sha256:ab", none)
      ∧ splitDockerRef (str "/@/") = ([], [], none) := by
  decide

/-- C8, amended: `splitDockerRef` succeeds on every input that contains `@`, empty
sides included; the returned repository is empty exactly when the text before the
first `@` of the stripped input holds nothing but `/`, and the returned digest is
empty exactly when the text after it holds nothing but `/`. -/
theorem splitDockerRef_empty_iff (ref : GoString) (h : '@'.toNat ∈ ref) :
    (splitDockerRef ref).2.2 = none
      ∧ ((splitDockerRef ref).1 = [] ↔ ∀ b ∈ specBefore ref, b = '/'.toNat)
      ∧ ((splitDockerRef ref).2.1 = [] ↔ ∀ b ∈ specAfter ref, b = '/'.toNat) := by
  rw [splitDockerRef_eq, if_pos h]
  exact ⟨rfl, specTrimSlashes_eq_nil _, specTrimSlashes_eq_nil _⟩

/-- C8, amended, at the reference `/@/`. -/
theorem splitDockerRef_empty_iff_witness :
    (splitDockerRef (str "/@/")).2.2 = none
      ∧ ((splitDockerRef (str "/@/")).1 = [] ↔ ∀ b ∈ specBefore (str "/@/"), b = '/'.toNat)
      ∧ ((splitDockerRef (str "/@/")).2.1 = [] ↔ ∀ b ∈ specAfter (str "/@/"), b = '/'.toNat) :=
  splitDockerRef_empty_iff (str "/@/") (by decide)

/-- C9: for every input containing `@`, `splitDockerRef` returns the text of the
stripped input before its first `@` and the text after it, each with its enclosing
`/` trimmed and otherwise unchanged; the repository holds no `@`, every further `@`
stays in the digest, and neither result begins or ends with `/`. -/
theorem splitDockerRef_refines_spec (ref : GoString) (h : '@'.toNat ∈ ref) :
    splitDockerRef ref
        = (specTrimSlashes (specBefore ref), specTrimSlashes (specAfter ref), none)
      ∧ '@'.toNat ∉ (splitDockerRef ref).1
      ∧ (splitDockerRef ref).2.1.count '@'.toNat + 1 = ref.count '@'.toNat
      ∧ (splitDockerRef ref).1.head? ≠ some '/'.toNat
      ∧ (splitDockerRef ref).1.getLast? ≠ some '/'.toNat
      ∧ (splitDockerRef ref).2.1.head? ≠ some '/'.toNat
      ∧ (splitDockerRef ref).2.1.getLast? ≠ some '/'.toNat := by
  rw [splitDockerRef_eq, if_pos h]
  refine ⟨rfl, ?_, ?_, specTrimSlashes_head _, specTrimSlashes_getLast _,
    specTrimSlashes_head _, specTrimSlashes_getLast _⟩
  · intro hm
    have h1 := (specTrimSlashes_sublist (specBefore ref)).subset hm
    have h2 := List.mem_takeWhile_imp h1
    simp at h2
  · show (specTrimSlashes (specAfter ref)).count '@'.toNat + 1 = ref.count '@'.toNat
    have h1 := count_split_first _ _ ((at_mem_specStripped ref).2 h)
    rw [count_at_specStripped] at h1
    rw [count_specTrimSlashes _ _ (by decide)]
    exact h1

/-- C9 at the reference `http://gcr.io/p//app/@/sha256:ab@cd//`. -/
theorem splitDockerRef_refines_spec_witness :
    splitDockerRef (str "http://gcr.io/p//app/@/sha256:ab@cd//")
        = (specTrimSlashes (specBefore (str "http://gcr.io/p//app/@/sha256:ab@cd//")),
            specTrimSlashes (specAfter (str "http://gcr.io/p//app/@/sha256:ab@cd//")), none)
      ∧ splitDockerRef (str "http://gcr.io/p//app/@/sha256:ab@cd//")
        = (str "gcr.io/p//app", str "sha256:ab@cd", none) :=
  ⟨(splitDockerRef_refines_spec (str "http://gcr.io/p//app/@/sha256:ab@cd//")
      (by decide)).1, by decide⟩


/-! ## Claims on `PayloadFor` and `CreateOccurrence` -/

/-- C1 at `r = gcr.io/proj/demo-app`, `d = sha256:abcd`: `PayloadFor` succeeds and
returns the one-line document with the keys in the stated order, but the type tag
stands under the key `Type`, not under the lowercase key `type` of the claim. -/
theorem payloadFor_type_key :
    PayloadFor (str "gcr.io/proj/demo-app") (str "sha256:abcd")
        = .ok (str ("\x7b\"critical\":\x7b\"identity\":\x7b\"docker-reference\":"
            ++ "\"gcr.io/proj/demo-app\"\x7d,\"image\":\x7b\"docker-manifest-digest\":"
            ++ "\"sha256:abcd\"\x7d,\"Type\":\"Google cloud binauthz container signature\""
            ++ "\x7d\x7d"))
      ∧ PayloadFor (str "gcr.io/proj/demo-app") (str "sha256:abcd")
        ≠ .ok (str ("\x7b\"critical\":\x7b\"identity\":\x7b\"docker-reference\":"
            ++ "\"gcr.io/proj/demo-app\"\x7d,\"image\":\x7b\"docker-manifest-digest\":"
            ++ "\"sha256:abcd\"\x7d,\"type\":\"Google cloud binauthz container signature\""
            ++ "\x7d\x7d")) := by
  constructor
  · rfl
  · intro h
    have h1 := Except.ok.inj h
    revert h1
    decide

/-- C4: `CreateOccurrence` either returns the invalid-note error and sends nothing,
and then `noteID` splits on `/` into fewer than four segments (it holds fewer than
three `/`), or it returns no invalid-note error, and then `noteID` has at least four
segments (at least three `/`). -/
theorem createOccurrence_invalidNote_iff (svc : Services)
    (noteID imageID keyID payload sig : GoString) :
    ((Split noteID '/'.toNat).length < 4 ∧ noteID.count '/'.toNat < 3
        ∧ CreateOccurrence svc noteID imageID keyID payload sig
          = (some (Error.invalidNoteID noteID), []))
      ∨ (4 ≤ (Split noteID '/'.toNat).length ∧ 3 ≤ noteID.count '/'.toNat
        ∧ ∀ n, (CreateOccurrence svc noteID imageID keyID payload sig).1
          ≠ some (Error.invalidNoteID n)) := by
  have hl := split_length noteID '/'.toNat
  by_cases h : (Split noteID '/'.toNat).length < 4
  · left
    refine ⟨h, by omega, ?_⟩
    simp only [CreateOccurrence, if_pos h]
  · right
    refine ⟨by omega, by omega, ?_⟩
    intro n
    simp only [CreateOccurrence, if_neg h]
    split <;> simp

/-- C4 at the note `projects/p` (and at the empty note): the invalid-note error, and
nothing is sent. -/
theorem createOccurrence_invalidNote_iff_witness :
    CreateOccurrence (demoServices none) (str "projects/p") (str "gcr.io/p/app@sha256:ab") (str "k") [1] [2]
      = (some (Error.invalidNoteID (str "projects/p")), []) :=
  (createOccurrence_invalidNote_iff _ (str "projects/p") (str "gcr.io/p/app@sha256:ab")
    (str "k") [1] [2]).elim (fun h => h.2.2) (fun h => absurd h.1 (by decide))

/-- C5: for every `noteID` with at least four `/`-segments, `CreateOccurrence` sends
exactly one request, to the occurrences collection of the project named by the second
segment, and the record in it has kind `ATTESTATION`, note name `noteID`, resource URI
`https://` + `imageID`, content type `SIMPLE_SIGNING_JSON`, the given payload bytes,
and one signature entry with public key ID `//cloudkms.googleapis.com/v1/` + `keyID`
and the given signature bytes. -/
theorem createOccurrence_record (svc : Services)
    (noteID imageID keyID payload sig : GoString)
    (h : 4 ≤ (Split noteID '/'.toNat).length) :
    (CreateOccurrence svc noteID imageID keyID payload sig).2
      = [Call.postOccurrence
          (str "https://containeranalysis.googleapis.com/v1beta1/projects/"
            ++ (Split noteID '/'.toNat).getD 1 [] ++ str "/occurrences")
          { Kind := str "ATTESTATION"
            NoteName := noteID
            Resource := some { URI := str "https://" ++ imageID }
            Attestation := some
              { Attestation := some
                  { GeneraticSignedAttestation := some
                      { ContentType := str "SIMPLE_SIGNING_JSON"
                        SerializedPayload := payload
                        Signatures :=
                          [some { PublicKeyID := str "//cloudkms.googleapis.com/v1/" ++ keyID
                                  Signature := sig }] } } } }] :=
  createOccurrence_sent svc noteID imageID keyID payload sig h

/-- C5 at the note `projects/proj/notes/qa`. -/
theorem createOccurrence_record_witness :
    (CreateOccurrence (demoServices none) (str "projects/proj/notes/qa") (str "gcr.io/proj/demo-app@sha256:abcd")
        (str "projects/proj/locations/l/keyRings/kr/cryptoKeys/k/cryptoKeyVersions/1")
        [1, 2] [3, 4]).2
      = [Call.postOccurrence
          (str "https://containeranalysis.googleapis.com/v1beta1/projects/proj/occurrences")
          { Kind := str "ATTESTATION"
            NoteName := str "projects/proj/notes/qa"
            Resource := some { URI := str "https://gcr.io/proj/demo-app@sha256:abcd" }
            Attestation := some
              { Attestation := some
                  { GeneraticSignedAttestation := some
                      { ContentType := str "SIMPLE_SIGNING_JSON"
                        SerializedPayload := [1, 2]
                        Signatures :=
                          [some { PublicKeyID := str ("//cloudkms.googleapis.com/v1/"
                                    ++ "projects/proj/locations/l/keyRings/kr/cryptoKeys/k/"
                                    ++ "cryptoKeyVersions/1")
                                  Signature := [3, 4] }] } } } }] :=
  (createOccurrence_record _ (str "projects/proj/notes/qa")
    (str "gcr.io/proj/demo-app@sha256:abcd")
    (str "projects/proj/locations/l/keyRings/kr/cryptoKeys/k/cryptoKeyVersions/1")
    [1, 2] [3, 4] (by decide)).trans (by decide)


/-! ## Claims on the `/verify` pipeline -/

/-- C6, as stated, fails: with an attestor that has no bound note and a signer that
answers, the handler still sends the signing request (after the attestor lookup) and
only then fails, in `CreateOccurrence`, with the generic error page. -/
theorem signer_called_for_unbound_note :
    (str "gcr.io/proj/demo-app@sha256:abcd" ≠ []
      ∧ (splitDockerRef (str "gcr.io/proj/demo-app@sha256:abcd")).2.2 = none
      ∧ attestor.NoteID (some ⟨str "qa", str "", none⟩) = [])
    ∧ verify demoConfig demoSum
        (demoServices none)
        ⟨none, str "gcr.io/proj/demo-app@sha256:abcd"⟩
      = { response := .page 500 "text/html" .errHTML
          calls :=
            [Call.getAttestor
              (str "https://binaryauthorization.googleapis.com/v1beta1/projects/p/attestors/a"),
             Call.postSign (str "https://cloudkms.googleapis.com/v1/k:asymmetricSign")
              { Digest := { SHA512 := str "\x7b\"" } }]
          log := [.err (.wrapped "failed to create occurrence" (.invalidNoteID []))] } := by
  decide

/-- C6, amended: for every non-empty image reference that parses, if the attestor
lookup succeeds with an attestor that has no bound note, the handler sends exactly the
attestor lookup and then one signing request for the SHA-512 of the payload, sends
nothing to the ledger, and answers with the generic error page (status 500); when the
signer answered, the logged failure is the invalid-note error of `CreateOccurrence`,
and when the signer failed with `e`, it is the signing error wrapping `e`. -/
theorem verify_unbound_note (cfg : Config) (Sum512 : GoString → GoString) (svc : Services)
    (r : Request) (a : attestor)
    (hform : r.parseForm = none) (hne : r.imageID ≠ [])
    (hparse : (splitDockerRef r.imageID).2.2 = none)
    (hget : svc.getAttestor
      (str "https://binaryauthorization.googleapis.com/v1beta1/" ++ cfg.attestorID) = .ok a)
    (hnote : attestor.NoteID (some a) = []) :
    ∃ payload,
      PayloadFor (splitDockerRef r.imageID).1 (splitDockerRef r.imageID).2.1 = .ok payload
      ∧ (verify cfg Sum512 svc r).response = .page 500 "text/html" .errHTML
      ∧ (verify cfg Sum512 svc r).calls
        = [Call.getAttestor
            (str "https://binaryauthorization.googleapis.com/v1beta1/" ++ cfg.attestorID),
           Call.postSign
            (str "https://cloudkms.googleapis.com/v1/" ++ cfg.kmsKeyVersionID
              ++ str ":asymmetricSign")
            { Digest := { SHA512 := Sum512 payload } }]
      ∧ (verify cfg Sum512 svc r).log
        = match svc.postSign
            (str "https://cloudkms.googleapis.com/v1/" ++ cfg.kmsKeyVersionID
              ++ str ":asymmetricSign")
            { Digest := { SHA512 := Sum512 payload } } with
          | .ok _ => [.err (.wrapped "failed to create occurrence" (.invalidNoteID []))]
          | .error e => [.err (.wrapped "failed to sign" (.wrapped "failed to sign" e))] := by
  obtain ⟨payload, hp⟩ := payloadFor_isOk (splitDockerRef r.imageID).1
    (splitDockerRef r.imageID).2.1
  refine ⟨payload, hp, ?_⟩
  rcases hs : splitDockerRef r.imageID with ⟨repo, sha, e⟩
  rw [hs] at hparse hp
  simp only at hparse hp
  subst hparse
  have hA : Attestor svc cfg.attestorID = (.ok a,
      [Call.getAttestor
        (str "https://binaryauthorization.googleapis.com/v1beta1/" ++ cfg.attestorID)]) := by
    simp only [Attestor, hget]
  have hC : ∀ sg, CreateOccurrence svc (attestor.NoteID (some a)) r.imageID
      cfg.kmsKeyVersionID payload sg = (some (.invalidNoteID []), []) := by
    intro sg
    have hsplit : (Split ([] : GoString) '/'.toNat).length < 4 := by decide
    simp only [hnote, CreateOccurrence, if_pos hsplit]
  cases hk : svc.postSign (str "https://cloudkms.googleapis.com/v1/" ++ cfg.kmsKeyVersionID
      ++ str ":asymmetricSign") { Digest := { SHA512 := Sum512 payload } } with
  | error e =>
    have hK : KMSSign svc cfg.kmsKeyVersionID { Digest := { SHA512 := Sum512 payload } }
        = (.error (.wrapped "failed to sign" e),
            [Call.postSign (str "https://cloudkms.googleapis.com/v1/" ++ cfg.kmsKeyVersionID
              ++ str ":asymmetricSign") { Digest := { SHA512 := Sum512 payload } }]) := by
      simp only [KMSSign, hk]
    simp [verify, hform, hne, hA, hs, hp, hK, handleError]
  | ok sg =>
    have hK : KMSSign svc cfg.kmsKeyVersionID { Digest := { SHA512 := Sum512 payload } }
        = (.ok sg,
            [Call.postSign (str "https://cloudkms.googleapis.com/v1/" ++ cfg.kmsKeyVersionID
              ++ str ":asymmetricSign") { Digest := { SHA512 := Sum512 payload } }]) := by
      simp only [KMSSign, hk]
    simp [verify, hform, hne, hA, hs, hp, hK, hC, handleError]

/-- C6, amended, at the reference `gcr.io/proj/demo-app@sha256:abcd` with a signer that
answers: status 500, and the log blames the note. -/
theorem verify_unbound_note_witness :
    ∃ payload,
      PayloadFor (splitDockerRef (str "gcr.io/proj/demo-app@sha256:abcd")).1
        (splitDockerRef (str "gcr.io/proj/demo-app@sha256:abcd")).2.1 = .ok payload
      ∧ (verify demoConfig demoSum (demoServices none)
          ⟨none, str "gcr.io/proj/demo-app@sha256:abcd"⟩).response
        = .page 500 "text/html" .errHTML
      ∧ (verify demoConfig demoSum (demoServices none)
          ⟨none, str "gcr.io/proj/demo-app@sha256:abcd"⟩).log
        = [.err (.wrapped "failed to create occurrence" (.invalidNoteID []))] :=
  (verify_unbound_note demoConfig demoSum (demoServices none)
    ⟨none, str "gcr.io/proj/demo-app@sha256:abcd"⟩ ⟨str "qa", str "", none⟩
    rfl (by decide) (by decide) rfl rfl).imp (fun _ h => ⟨h.1, h.2.1, h.2.2.2⟩)

/-- What the handler does on a non-empty image reference without `@`: it sends the
attestor lookup and nothing else, and answers with what `handleError` writes, status
500 with the error page; the log holds the lookup error when the lookup failed, and
the parse error otherwise. -/
theorem verify_no_at (cfg : Config) (Sum512 : GoString → GoString) (svc : Services)
    (r : Request) (hform : r.parseForm = none) (hne : r.imageID ≠ [])
    (hat : '@'.toNat ∉ r.imageID) :
    (verify cfg Sum512 svc r).response = .page 500 "text/html" .errHTML
      ∧ (verify cfg Sum512 svc r).calls
        = [Call.getAttestor
            (str "https://binaryauthorization.googleapis.com/v1beta1/" ++ cfg.attestorID)]
      ∧ (verify cfg Sum512 svc r).log
        = match svc.getAttestor
            (str "https://binaryauthorization.googleapis.com/v1beta1/" ++ cfg.attestorID) with
          | .ok _ => [.err (.wrapped "failed to parse ref" .invalidImageID)]
          | .error e =>
            [.err (.wrapped "failed to lookup attestor" (.wrapped "failed to get attestor" e))]
    := by
  have hs : splitDockerRef r.imageID = ([], [], some Error.invalidImageID) := by
    rw [splitDockerRef_eq, if_neg hat]
  cases hget : svc.getAttestor
      (str "https://binaryauthorization.googleapis.com/v1beta1/" ++ cfg.attestorID) with
  | error e =>
    have hA : Attestor svc cfg.attestorID = (.error (.wrapped "failed to get attestor" e),
        [Call.getAttestor
          (str "https://binaryauthorization.googleapis.com/v1beta1/" ++ cfg.attestorID)]) := by
      simp only [Attestor, hget]
    simp [verify, hform, hne, hA, handleError]
  | ok a =>
    have hA : Attestor svc cfg.attestorID = (.ok a,
        [Call.getAttestor
          (str "https://binaryauthorization.googleapis.com/v1beta1/" ++ cfg.attestorID)]) := by
      simp only [Attestor, hget]
    simp [verify, hform, hne, hA, hs, handleError]

/-- C7 at the non-empty reference `gcr.io/p/demo-app`, which has no `@`, with every
service answering: the handler answers with status 500 and the error page, the very
response `handleError` writes for any failure of the pipeline, and logs the parse
error; the other validation failure of the same handler, the empty reference, is
answered with status 422 and the text `Missing imageID`. -/
theorem malformed_reference_gets_error_page :
    (str "gcr.io/p/demo-app" ≠ [] ∧ '@'.toNat ∉ str "gcr.io/p/demo-app")
    ∧ verify demoConfig demoSum (demoServices (some ⟨str "projects/p/notes/qa"⟩))
        ⟨none, str "gcr.io/p/demo-app"⟩
      = { response := .page 500 "text/html" .errHTML
          calls :=
            [Call.getAttestor
              (str "https://binaryauthorization.googleapis.com/v1beta1/projects/p/attestors/a")]
          log := [.err (.wrapped "failed to parse ref" .invalidImageID)] }
    ∧ (handleError [] (.external "any")).response = .page 500 "text/html" .errHTML
    ∧ verify demoConfig demoSum (demoServices (some ⟨str "projects/p/notes/qa"⟩))
        ⟨none, []⟩
      = { response := .page 422 "text/html" .missingImageID
          calls := []
          log := [.missingImageID] } := by
  decide

/-- C10: in every run of the handler that sends a record to the ledger, the parse of
the image reference succeeded, the record's serialized payload is the very bytes
`PayloadFor` returned for the parsed repository and digest, the signer was sent the
SHA-512 of those bytes, the record's one signature is the signature the signer
returned for that digest, and the record's public key ID and the signer's URL are
built from the same key version ID. -/
theorem verify_publish_dataflow (cfg : Config) (Sum512 : GoString → GoString)
    (svc : Services) (r : Request) (u : GoString) (o : occurrence)
    (h : Call.postOccurrence u o ∈ (verify cfg Sum512 svc r).calls) :
    ∃ payload sg,
      (splitDockerRef r.imageID).2.2 = none
      ∧ PayloadFor (splitDockerRef r.imageID).1 (splitDockerRef r.imageID).2.1 = .ok payload
      ∧ svc.postSign
          (str "https://cloudkms.googleapis.com/v1/" ++ cfg.kmsKeyVersionID
            ++ str ":asymmetricSign")
          { Digest := { SHA512 := Sum512 payload } } = .ok sg
      ∧ (verify cfg Sum512 svc r).calls
        = [Call.getAttestor
            (str "https://binaryauthorization.googleapis.com/v1beta1/" ++ cfg.attestorID),
           Call.postSign
            (str "https://cloudkms.googleapis.com/v1/" ++ cfg.kmsKeyVersionID
              ++ str ":asymmetricSign")
            { Digest := { SHA512 := Sum512 payload } },
           Call.postOccurrence u o]
      ∧ o.Attestation = some
          { Attestation := some
              { GeneraticSignedAttestation := some
                  { ContentType := str "SIMPLE_SIGNING_JSON"
                    SerializedPayload := payload
                    Signatures :=
                      [some { PublicKeyID :=
                                str "//cloudkms.googleapis.com/v1/" ++ cfg.kmsKeyVersionID
                              Signature := sg.Signature }] } } } := by
  cases hform : r.parseForm with
  | some e => simp [verify, hform, handleError] at h
  | none =>
    by_cases hne : r.imageID = []
    · simp [verify, hform, hne] at h
    · cases hget : svc.getAttestor
          (str "https://binaryauthorization.googleapis.com/v1beta1/" ++ cfg.attestorID) with
      | error e =>
        have hA : Attestor svc cfg.attestorID = (.error (.wrapped "failed to get attestor" e),
            [Call.getAttestor (str "https://binaryauthorization.googleapis.com/v1beta1/"
              ++ cfg.attestorID)]) := by
          simp only [Attestor, hget]
        simp [verify, hform, hne, hA, handleError] at h
      | ok a =>
        have hA : Attestor svc cfg.attestorID = (.ok a,
            [Call.getAttestor (str "https://binaryauthorization.googleapis.com/v1beta1/"
              ++ cfg.attestorID)]) := by
          simp only [Attestor, hget]
        obtain ⟨payload, hp⟩ := payloadFor_isOk (splitDockerRef r.imageID).1
          (splitDockerRef r.imageID).2.1
        rcases hs : splitDockerRef r.imageID with ⟨repo, sha, e⟩
        rw [hs] at hp
        simp only at hp
        cases e with
        | some e => simp [verify, hform, hne, hA, hs, handleError] at h
        | none =>
          cases hk : svc.postSign (str "https://cloudkms.googleapis.com/v1/"
              ++ cfg.kmsKeyVersionID ++ str ":asymmetricSign")
              { Digest := { SHA512 := Sum512 payload } } with
          | error e =>
            have hK : KMSSign svc cfg.kmsKeyVersionID { Digest := { SHA512 := Sum512 payload } }
                = (.error (.wrapped "failed to sign" e),
                    [Call.postSign (str "https://cloudkms.googleapis.com/v1/"
                      ++ cfg.kmsKeyVersionID ++ str ":asymmetricSign")
                      { Digest := { SHA512 := Sum512 payload } }]) := by
              simp only [KMSSign, hk]
            simp [verify, hform, hne, hA, hs, hp, hK, handleError] at h
          | ok sg =>
            have hK : KMSSign svc cfg.kmsKeyVersionID { Digest := { SHA512 := Sum512 payload } }
                = (.ok sg,
                    [Call.postSign (str "https://cloudkms.googleapis.com/v1/"
                      ++ cfg.kmsKeyVersionID ++ str ":asymmetricSign")
                      { Digest := { SHA512 := Sum512 payload } }]) := by
              simp only [KMSSign, hk]
            refine ⟨payload, sg, rfl, hp, hk, ?_⟩
            by_cases hsplit : (Split (attestor.NoteID (some a)) '/'.toNat).length < 4
            · have hC : CreateOccurrence svc (attestor.NoteID (some a)) r.imageID
                  cfg.kmsKeyVersionID payload sg.Signature
                  = (some (.invalidNoteID (attestor.NoteID (some a))), []) := by
                simp only [CreateOccurrence, if_pos hsplit]
              simp [verify, hform, hne, hA, hs, hp, hK, hC, handleError] at h
            · have hsent := createOccurrence_sent svc (attestor.NoteID (some a)) r.imageID
                cfg.kmsKeyVersionID payload sg.Signature (by omega)
              rcases hC : CreateOccurrence svc (attestor.NoteID (some a)) r.imageID
                cfg.kmsKeyVersionID payload sg.Signature with ⟨e3, c3⟩
              rw [hC] at hsent
              simp only at hsent
              subst hsent
              cases e3 with
              | some e3 =>
                simp [verify, hform, hne, hA, hs, hp, hK, hC, handleError] at h ⊢
                obtain ⟨rfl, rfl⟩ := h
                simp
              | none =>
                simp [verify, hform, hne, hA, hs, hp, hK, hC, handleError] at h ⊢
                obtain ⟨rfl, rfl⟩ := h
                simp

/-- C10 at the reference `gcr.io/proj/demo-app@sha256:abcd` with the note
`projects/proj/notes/qa`: the run sends a record to the ledger, and that record holds
the bytes `PayloadFor` returned and the signature the signer returned. -/
theorem verify_publish_dataflow_witness :
    ∃ (payload : GoString) (sg : signature),
      PayloadFor (str "gcr.io/proj/demo-app") (str "sha256:abcd") = .ok payload
      ∧ (demoServices (some ⟨str "projects/proj/notes/qa"⟩)).postSign
          (str "https://cloudkms.googleapis.com/v1/k:asymmetricSign")
          { Digest := { SHA512 := demoSum payload } } = .ok sg
      ∧ (verify demoConfig demoSum (demoServices (some ⟨str "projects/proj/notes/qa"⟩))
          ⟨none, str "gcr.io/proj/demo-app@sha256:abcd"⟩).calls
        = [Call.getAttestor
            (str "https://binaryauthorization.googleapis.com/v1beta1/projects/p/attestors/a"),
           Call.postSign (str "https://cloudkms.googleapis.com/v1/k:asymmetricSign")
            { Digest := { SHA512 := demoSum payload } },
           Call.postOccurrence
            (str "https://containeranalysis.googleapis.com/v1beta1/projects/proj/occurrences")
            demoRecord] :=
  (verify_publish_dataflow demoConfig demoSum
    (demoServices (some ⟨str "projects/proj/notes/qa"⟩))
    ⟨none, str "gcr.io/proj/demo-app@sha256:abcd"⟩
    (str "https://containeranalysis.googleapis.com/v1beta1/projects/proj/occurrences")
    demoRecord
    (List.mem_cons_of_mem _ (List.mem_cons_of_mem _ (List.mem_cons_self _ _)))).imp fun _ hx => hx.imp fun _ hy => ⟨hy.2.1, hy.2.2.1, hy.2.2.2.1⟩

end QAVerifier
